import Mathlib

/-
Verification of the KVideo access gate (src/components/PasswordGate.tsx) and
subscription syncer (src/unnamed/part_000, the useSubscriptionSync hook),
as a shallow embedding in Lean 4.
-/

namespace KVideo

/-! ## Data model: password gate (PasswordGate.tsx) -/

/-- The settings fields read by the password gate: `passwordAccess` and
`accessPasswords` (PasswordGate.tsx lines 29, 103). -/
structure GateSettings where
  passwordAccess : Bool
  accessPasswords : List String
deriving Repr, DecidableEq

/-- The lock-state formula stated by the spec (section 3 invariant):
`locked = (passwordAccess OR envPasswordPresent) AND NOT sessionUnlocked`.
This definition follows the spec words, to be compared with the recompute
points embedded from the source. -/
def specLockState (passwordAccess envPasswordPresent sessionUnlocked : Bool) : Bool :=
  (passwordAccess || envPasswordPresent) && !sessionUnlocked

/-- PasswordGate.tsx line 29: the provisional lock state computed synchronously
at mount: `(settings.passwordAccess || initialHasEnvPassword) && !isUnlocked`. -/
def initLocalLocked (passwordAccess initialHasEnvPassword isUnlocked : Bool) : Bool :=
  (passwordAccess || initialHasEnvPassword) && !isUnlocked

/-- PasswordGate.tsx line 53: the lock state recomputed after the server config
fetch succeeds: `(settings.passwordAccess || data.hasEnvPassword) && !isUnlocked`. -/
def initConfirmLocked (passwordAccess dataHasEnvPassword isUnlocked : Bool) : Bool :=
  (passwordAccess || dataHasEnvPassword) && !isUnlocked

/-- PasswordGate.tsx lines 72-88 (`handleSettingsUpdate`): on a settings-change
notification, set lock state to false when `!settings.passwordAccess && !hasEnvPassword`,
to true when `settings.passwordAccess && !isUnlocked`, and otherwise leave the
previous lock state in place (neither `setIsLocked` call fires). -/
def handleSettingsUpdate (passwordAccess hasEnvPassword isUnlocked prevLocked : Bool) : Bool :=
  if !passwordAccess && !hasEnvPassword then false
  else if passwordAccess && !isUnlocked then true
  else prevLocked

/-- The gate state touched by an unlock attempt: the `isLocked` and `error`
React state plus the `kvideo-unlocked` session-storage flag. -/
structure UnlockState where
  isLocked : Bool
  error : Bool
  sessionUnlocked : Bool
deriving Repr, DecidableEq

/-- Result of an unlock attempt: the post state, and whether a network request
(`POST /api/config`) was issued. -/
structure UnlockResult where
  state : UnlockState
  networkCall : Bool
deriving Repr, DecidableEq

/-- PasswordGate.tsx lines 96-138 (`handleUnlock`): check the candidate against
`settings.accessPasswords` first (no network); on a local hit set the session
flag, unlock and clear the error. Otherwise, when `hasEnvPassword`, POST the
candidate; `serverResponse` is `some v` for a `{valid: v}` reply and `none` when
the request throws. Only `{valid: true}` unlocks; a `{valid: false}` reply, a
thrown request, or `hasEnvPassword = false` falls through to the error path,
which sets the error flag and leaves `isLocked` and the session flag untouched. -/
def handleUnlock (settings : GateSettings) (hasEnvPassword : Bool)
    (password : String) (serverResponse : Option Bool) (pre : UnlockState) : UnlockResult :=
  if settings.accessPasswords.contains password then
    ⟨⟨false, false, true⟩, false⟩
  else if hasEnvPassword then
    match serverResponse with
    | some true => ⟨⟨false, false, true⟩, true⟩
    | _ => ⟨⟨pre.isLocked, true, pre.sessionUnlocked⟩, true⟩
  else
    ⟨⟨pre.isLocked, true, pre.sessionUnlocked⟩, false⟩

/-! ## Data model: subscription syncer (src/unnamed/part_000, useSubscriptionSync) -/

/-- Sources are opaque records merged by identity (spec section 3); the syncer
only passes them around and compares them, so they are embedded as strings. -/
abbrev Source := String

/-- A subscription entry (spec section 3): `autoRefresh` may be absent on the
stored object, hence `Option Bool`; the hook keeps a subscription active unless
`autoRefresh` is explicitly `false`. -/
structure Subscription where
  id : String
  url : String
  name : String
  autoRefresh : Option Bool
  lastUpdated : Option Nat
deriving Repr, DecidableEq

/-- useSubscriptionSync line 20: `subscriptions.filter(s => s.autoRefresh !== false)`. -/
def isActive (s : Subscription) : Bool := s.autoRefresh != some false

/-- The value returned by a successful `fetchSourcesFromUrl` call. -/
structure FetchResult where
  normalSources : List Source
  premiumSources : List Source
deriving Repr, DecidableEq

/-- The settings fields the syncer reads and writes. -/
structure Settings where
  sources : List Source
  premiumSources : List Source
  subscriptions : List Subscription
deriving Repr, DecidableEq

/-- Modelled from the spec: `mergeSources` lives in
`@/lib/utils/source-import-utils`, which is not among the given sources. Spec
sections 3, 6 and 8 describe it as merging by identity and deduplicating
(merging the same source twice does not duplicate entries), so it is modelled
as appending the incoming entries not already present. -/
def mergeSources (existing incoming : List Source) : List Source :=
  existing ++ incoming.filter (fun s => !(existing.contains s))

/-- useSubscriptionSync lines 57-63: `findIndex(s => s.id === sub.id)` on the
local subscription copy, then replace that entry with one whose `lastUpdated`
is the current time; when no entry matches (`findIndex` returns -1), the list
is unchanged. -/
def updateTimestamp (subs : List Subscription) (subId : String) (now : Nat) :
    List Subscription :=
  match subs with
  | [] => []
  | s :: rest =>
    if s.id == subId then { s with lastUpdated := some now } :: rest
    else s :: updateTimestamp rest subId now

/-- The loop-local accumulators of `sync` (useSubscriptionSync lines 30-34):
`currentSources`, `currentPremiumSources`, `updatedSubscriptions`, `anyChanged`. -/
structure SyncState where
  currentSources : List Source
  currentPremiumSources : List Source
  updatedSubscriptions : List Subscription
  anyChanged : Bool
deriving Repr, DecidableEq

/-- One iteration of the `for` loop (useSubscriptionSync lines 36-67) on
subscription `sub`. `outcome` is `some r` when `fetchSourcesFromUrl` resolves
with `r` and `none` when it throws (the `catch` only logs and continues); `now`
is the `Date.now()` value of this iteration. On success each non-empty source
list is merged (setting `anyChanged`) and the subscription timestamp is
refreshed; on failure nothing changes. -/
def syncStep (merge : List Source → List Source → List Source) (st : SyncState)
    (sub : Subscription) (outcome : Option FetchResult) (now : Nat) : SyncState :=
  match outcome with
  | none => st
  | some result =>
    let st1 :=
      if result.normalSources.length > 0 then
        { st with currentSources := merge st.currentSources result.normalSources,
                  anyChanged := true }
      else st
    let st2 :=
      if result.premiumSources.length > 0 then
        { st1 with
            currentPremiumSources := merge st1.currentPremiumSources result.premiumSources,
            anyChanged := true }
      else st1
    { st2 with updatedSubscriptions := updateTimestamp st2.updatedSubscriptions sub.id now }

/-- The strictly sequential `for` loop over the active subscriptions, consuming
one fetch outcome and one clock value per iteration. -/
def runBatch (merge : List Source → List Source → List Source) :
    SyncState → List Subscription → List (Option FetchResult) → List Nat → SyncState
  | st, [], _, _ => st
  | st, _ :: _, [], _ => st
  | st, _ :: _, _ :: _, [] => st
  | st, sub :: subs, o :: os, t :: ts => runBatch merge (syncStep merge st sub o t) subs os ts

/-- The `sync` closure (useSubscriptionSync lines 19-77): filter the active
subscriptions (early return when none), run the batch on the store snapshot,
and call `saveSettings` with all three fields iff `anyChanged`. The result is
`some payload` exactly when `saveSettings(payload)` is called, `none` when no
write occurs. `subscriptions` is the hook state the loop iterates over and
copies into `updatedSubscriptions`; `settings` is the store snapshot of line 29. -/
def sync (merge : List Source → List Source → List Source)
    (subscriptions : List Subscription) (settings : Settings)
    (outcomes : List (Option FetchResult)) (times : List Nat) : Option Settings :=
  let activeSubscriptions := subscriptions.filter isActive
  if activeSubscriptions.length = 0 then none
  else
    let st := runBatch merge
      ⟨settings.sources, settings.premiumSources, subscriptions, false⟩
      activeSubscriptions outcomes times
    if st.anyChanged then
      some ⟨st.currentSources, st.currentPremiumSources, st.updatedSubscriptions⟩
    else none

/-- Whether a fetch outcome makes the loop set `anyChanged`: a successful
result with a non-empty normal or premium list. -/
def outcomeNonEmpty : Option FetchResult → Bool
  | none => false
  | some r => decide (0 < r.normalSources.length) || decide (0 < r.premiumSources.length)

/-- The debounce delay of useSubscriptionSync line 80, in milliseconds. -/
def syncDebounceDelay : Nat := 1000

/-- Event-loop model of the effect scheduling (useSubscriptionSync lines
79-82): every replacement of the subscription list at time `t` re-runs the
effect, which arms `setTimeout(sync, delay)`; the cleanup of that effect run
executes `clearTimeout` when the next replacement arrives, so an armed timer
runs its sync batch (at `t + delay`) only when it rings strictly before the
next change, and the timer armed by the final change always fires. The result
lists the times at which sync batches actually run. -/
def debounceFires (delay : Nat) : List Nat → List Nat
  | [] => []
  | [t] => [t + delay]
  | t :: t2 :: rest =>
    (if t + delay < t2 then [t + delay] else []) ++ debounceFires delay (t2 :: rest)

/-- Relation used for the timestamp-monotonicity proof: `n` is `o` either
untouched or re-stamped with some batch time drawn from `ts`. -/
def stampedFrom (ts : List Nat) (o n : Subscription) : Prop :=
  n = o ∨ ∃ t ∈ ts, n = { o with lastUpdated := some t }

/-! ## Claims about the password gate -/

/-- C1, counterexample: the claim says every recompute point yields
`(passwordAccess || env) && !sessionUnlocked`, but the settings-change handler
does not: with `passwordAccess = false`, `hasEnvPassword = true`,
`sessionUnlocked = false` and previous lock state `false`, the handler keeps
`false` while the formula gives `true`. -/
theorem settingsUpdate_breaks_lock_formula :
    handleSettingsUpdate false true false false ≠ specLockState false true false := by
  decide

/-- C1 (corrected): both initialization recomputes (the provisional local one
and the server-confirmed one) always equal the spec formula
`(passwordAccess OR env) AND NOT sessionUnlocked`; the settings-change handler
applies the formula when `passwordAccess` is on and the session is not
unlocked, or when `passwordAccess` is off and no env password is known, and in
every other input combination it leaves the previous lock state unchanged
(which may disagree with the formula). -/
theorem lock_recompute_amended (pa env unlocked prev : Bool) :
    initLocalLocked pa env unlocked = specLockState pa env unlocked ∧
    initConfirmLocked pa env unlocked = specLockState pa env unlocked ∧
    (((pa && !unlocked) || (!pa && !env)) = true →
      handleSettingsUpdate pa env unlocked prev = specLockState pa env unlocked) ∧
    (((pa && !unlocked) || (!pa && !env)) = false →
      handleSettingsUpdate pa env unlocked prev = prev) := by
  cases pa <;> cases env <;> cases unlocked <;> cases prev <;> decide

/-- C1 witness: the handler applies the formula at `passwordAccess = true`,
`env = false`, `sessionUnlocked = false`, and keeps the previous lock state at
`passwordAccess = true`, `sessionUnlocked = true` where the condition fails. -/
theorem lock_recompute_amended_witness :
    handleSettingsUpdate true false false false = specLockState true false false ∧
    handleSettingsUpdate true false true true = true :=
  ⟨(lock_recompute_amended true false false false).2.2.1 (by decide),
   (lock_recompute_amended true false true true).2.2.2 (by decide)⟩

/-- C2: with a candidate absent from `accessPasswords` and `hasEnvPassword = true`:
a `{valid: true}` reply unlocks, sets the session flag and clears the error; a
`{valid: false}` reply or a failed request leaves the lock state `true` (it was
`true` before the attempt) and sets the error flag. -/
theorem unlock_env_password (settings : GateSettings) (password : String)
    (pre : UnlockState)
    (habs : settings.accessPasswords.contains password = false)
    (hpre : pre.isLocked = true) :
    (handleUnlock settings true password (some true) pre).state = ⟨false, false, true⟩ ∧
    (handleUnlock settings true password (some false) pre).state.isLocked = true ∧
    (handleUnlock settings true password (some false) pre).state.error = true ∧
    (handleUnlock settings true password none pre).state.isLocked = true ∧
    (handleUnlock settings true password none pre).state.error = true := by
  simp only [List.contains, List.elem_eq_mem, decide_eq_false_iff_not] at habs
  simp [handleUnlock, habs, hpre]

/-- C2 witness: the env-password unlock behaviour at a concrete gate state. -/
theorem unlock_env_password_witness :
    (GateSettings.mk true ["pw1"]).accessPasswords.contains "other" = false ∧
    (handleUnlock ⟨true, ["pw1"]⟩ true "other" (some true)
        ⟨true, false, false⟩).state = ⟨false, false, true⟩ ∧
    (handleUnlock ⟨true, ["pw1"]⟩ true "other" none
        ⟨true, false, false⟩).state.isLocked = true :=
  ⟨by decide,
    (unlock_env_password ⟨true, ["pw1"]⟩ "other" ⟨true, false, false⟩
      (by decide) (by decide)).1,
    (unlock_env_password ⟨true, ["pw1"]⟩ "other" ⟨true, false, false⟩
      (by decide) (by decide)).2.2.1⟩

/-- C3: with a candidate present in `accessPasswords`, the attempt unlocks,
sets the session flag, clears the error flag, and issues no network request,
for every env-password flag, server behaviour and prior state. -/
theorem unlock_local_hit (settings : GateSettings) (hasEnvPassword : Bool)
    (password : String) (serverResponse : Option Bool) (pre : UnlockState)
    (hmem : settings.accessPasswords.contains password = true) :
    handleUnlock settings hasEnvPassword password serverResponse pre =
      ⟨⟨false, false, true⟩, false⟩ := by
  simp only [List.contains, List.elem_eq_mem, decide_eq_true_eq] at hmem
  simp [handleUnlock, hmem]

/-- C3 witness: a concrete local-password hit. -/
theorem unlock_local_hit_witness :
    (GateSettings.mk true ["pw1", "pw2"]).accessPasswords.contains "pw2" = true ∧
    handleUnlock ⟨true, ["pw1", "pw2"]⟩ true "pw2" none ⟨true, true, false⟩ =
      ⟨⟨false, false, true⟩, false⟩ :=
  ⟨by decide,
    unlock_local_hit ⟨true, ["pw1", "pw2"]⟩ true "pw2" none ⟨true, true, false⟩ (by decide)⟩

/-- C7: when the session flag is already unlocked, both initialization
recomputes resolve the lock state to false, for all values of `passwordAccess`
and of the server password flag. -/
theorem init_session_unlocked (pa env : Bool) :
    initLocalLocked pa env true = false ∧ initConfirmLocked pa env true = false := by
  cases pa <;> cases env <;> decide

/-- C10: on a settings-change event with `passwordAccess = false` and
`hasEnvPassword = true`, the handler changes nothing: the previous lock state
is kept, for every session flag and previous value. -/
theorem settingsUpdate_frame (unlocked prev : Bool) :
    handleSettingsUpdate false true unlocked prev = prev := by
  cases unlocked <;> cases prev <;> decide

/-! ## Claims about the subscription syncer -/

/-- C4: over three active subscriptions where the second fetch throws and the
first and third succeed with non-empty normal source lists (premium lists
empty), the batch is not aborted: exactly one save happens, its sources merge
the first and then the third result into the snapshot, the first and third
subscriptions carry their fresh timestamps, and the second subscription —
its `lastUpdated` included — is unchanged. -/
theorem sync_partial_failure (merge : List Source → List Source → List Source)
    (s1 s2 s3 : Subscription) (settings : Settings) (r1 r3 : FetchResult)
    (t1 t2 t3 : Nat)
    (ha1 : isActive s1 = true) (ha2 : isActive s2 = true) (ha3 : isActive s3 = true)
    (h13 : s1.id ≠ s3.id) (h23 : s2.id ≠ s3.id)
    (hr1 : r1.normalSources ≠ []) (hr3 : r3.normalSources ≠ [])
    (hp1 : r1.premiumSources = []) (hp3 : r3.premiumSources = []) :
    sync merge [s1, s2, s3] settings [some r1, none, some r3] [t1, t2, t3] =
      some ⟨merge (merge settings.sources r1.normalSources) r3.normalSources,
            settings.premiumSources,
            [{ s1 with lastUpdated := some t1 }, s2,
             { s3 with lastUpdated := some t3 }]⟩ := by
  have e13 : (s1.id == s3.id) = false := beq_eq_false_iff_ne.mpr h13
  have e23 : (s2.id == s3.id) = false := beq_eq_false_iff_ne.mpr h23
  have l1 : 0 < r1.normalSources.length := List.length_pos.mpr hr1
  have l3 : 0 < r3.normalSources.length := List.length_pos.mpr hr3
  simp [sync, runBatch, syncStep, updateTimestamp, ha1, ha2, ha3, hp1, hp3,
    l1, l3, e13, e23]

/-- C4 witness: a concrete three-subscription batch whose middle fetch fails. -/
theorem sync_partial_failure_witness :
    sync mergeSources
      [⟨"s1", "u1", "n1", none, none⟩, ⟨"s2", "u2", "n2", some true, some 3⟩,
       ⟨"s3", "u3", "n3", none, none⟩]
      ⟨["a"], ["p"], []⟩ [some ⟨["b"], []⟩, none, some ⟨["a", "c"], []⟩] [10, 11, 12] =
      some ⟨mergeSources (mergeSources ["a"] ["b"]) ["a", "c"], ["p"],
            [⟨"s1", "u1", "n1", none, some 10⟩, ⟨"s2", "u2", "n2", some true, some 3⟩,
             ⟨"s3", "u3", "n3", none, some 12⟩]⟩ :=
  sync_partial_failure mergeSources
    ⟨"s1", "u1", "n1", none, none⟩ ⟨"s2", "u2", "n2", some true, some 3⟩
    ⟨"s3", "u3", "n3", none, none⟩ ⟨["a"], ["p"], []⟩
    ⟨["b"], []⟩ ⟨["a", "c"], []⟩ 10 11 12
    (by decide) (by decide) (by decide) (by decide) (by decide)
    (by decide) (by decide) rfl rfl

/-- Helper: one loop iteration sets `anyChanged` exactly when the outcome is a
successful fetch with a non-empty list. -/
theorem syncStep_anyChanged (merge : List Source → List Source → List Source)
    (st : SyncState) (sub : Subscription) (o : Option FetchResult) (t : Nat) :
    (syncStep merge st sub o t).anyChanged = (st.anyChanged || outcomeNonEmpty o) := by
  cases o with
  | none => simp [syncStep, outcomeNonEmpty]
  | some r =>
    simp only [syncStep, outcomeNonEmpty]
    by_cases h1 : 0 < r.normalSources.length <;>
      by_cases h2 : 0 < r.premiumSources.length <;> simp [h1, h2]

/-- Helper: across a whole batch (with one outcome and one clock value per
active subscription), `anyChanged` ends true iff it started true or some
outcome was a successful fetch with a non-empty list. -/
theorem runBatch_anyChanged (merge : List Source → List Source → List Source) :
    ∀ (subs : List Subscription) (os : List (Option FetchResult)) (ts : List Nat)
      (st : SyncState), subs.length = os.length → subs.length = ts.length →
      (runBatch merge st subs os ts).anyChanged =
        (st.anyChanged || os.any outcomeNonEmpty) := by
  intro subs
  induction subs with
  | nil =>
    intro os ts st h1 h2
    have : os = [] := List.eq_nil_of_length_eq_zero h1.symm
    subst this
    simp [runBatch]
  | cons sub subs ih =>
    intro os ts st h1 h2
    cases os with
    | nil => simp at h1
    | cons o os =>
      cases ts with
      | nil => simp at h2
      | cons t ts =>
        simp only [runBatch]
        rw [ih os ts (syncStep merge st sub o t)
          (by simpa using h1) (by simpa using h2)]
        rw [syncStep_anyChanged]
        simp [Bool.or_assoc]

/-- C5, counterexample: a successful fetch whose (non-empty) payload is already
present leaves both source lists exactly as they were, yet `anyChanged` is set
and a `saveSettings` call still happens (it even rewrites the subscription
timestamp), contradicting "if nothing changed, no saveSettings call occurs and
the store is left untouched". `mergeSources` is modelled from the spec as
deduplicating by identity. -/
theorem sync_save_despite_unchanged_sources :
    (sync mergeSources [⟨"s1", "u1", "n1", none, none⟩] ⟨["a"], [], []⟩
        [some ⟨["a"], []⟩] [9]).map Settings.sources = some ["a"] ∧
    (sync mergeSources [⟨"s1", "u1", "n1", none, none⟩] ⟨["a"], [], []⟩
        [some ⟨["a"], []⟩] [9]).map Settings.premiumSources = some [] ∧
    sync mergeSources [⟨"s1", "u1", "n1", none, none⟩] ⟨["a"], [], []⟩
        [some ⟨["a"], []⟩] [9] ≠ none := by
  refine ⟨rfl, rfl, ?_⟩
  decide

/-- C5 (corrected): per batch the syncer issues at most one `saveSettings`
call, carrying all three fields; the call happens iff some successful fetch
returned a non-empty normal or premium list — when a source list changed this
is the case, but the call also happens when merging a non-empty duplicate
payload changed nothing. -/
theorem sync_saves_iff_nonempty_result (merge : List Source → List Source → List Source)
    (subscriptions : List Subscription) (settings : Settings)
    (outcomes : List (Option FetchResult)) (times : List Nat)
    (h1 : outcomes.length = (subscriptions.filter isActive).length)
    (h2 : times.length = (subscriptions.filter isActive).length) :
    (sync merge subscriptions settings outcomes times).isSome =
      outcomes.any outcomeNonEmpty := by
  simp only [sync]
  split
  case isTrue hz =>
    have : outcomes = [] := List.eq_nil_of_length_eq_zero (h1.trans hz)
    subst this
    simp
  case isFalse hz =>
    rw [runBatch_anyChanged merge _ _ _ _ h1.symm h2.symm]
    simp only [Bool.false_or]
    cases houtcomes : outcomes.any outcomeNonEmpty <;> simp [houtcomes]

/-- C5 witness: a concrete batch with one successful non-empty fetch saves. -/
theorem sync_saves_iff_nonempty_result_witness :
    (sync mergeSources [⟨"s1", "u1", "n1", none, none⟩] ⟨["a"], [], []⟩
        [some ⟨["b"], []⟩] [7]).isSome =
      ([some (⟨["b"], []⟩ : FetchResult)] : List (Option FetchResult)).any outcomeNonEmpty :=
  sync_saves_iff_nonempty_result mergeSources [⟨"s1", "u1", "n1", none, none⟩]
    ⟨["a"], [], []⟩ [some ⟨["b"], []⟩] [7] (by decide) (by decide)

/-- Helper: when every successful outcome carries empty source lists, the loop
never sets `anyChanged`, whatever the timestamps it stamps locally. -/
theorem runBatch_empty_results (merge : List Source → List Source → List Source) :
    ∀ (subs : List Subscription) (os : List (Option FetchResult)) (ts : List Nat)
      (st : SyncState),
      (∀ r, some r ∈ os → r.normalSources = [] ∧ r.premiumSources = []) →
      (runBatch merge st subs os ts).anyChanged = st.anyChanged := by
  intro subs
  induction subs with
  | nil => intro os ts st _; cases os <;> cases ts <;> rfl
  | cons sub subs ih =>
    intro os ts st hos
    cases os with
    | nil => rfl
    | cons o os =>
      cases ts with
      | nil => rfl
      | cons t ts =>
        simp only [runBatch]
        rw [ih os ts _ (fun r hr => hos r (List.mem_cons_of_mem _ hr))]
        rw [syncStep_anyChanged]
        cases o with
        | none => simp [outcomeNonEmpty]
        | some r =>
          have := hos r (List.mem_cons_self _ _)
          simp [outcomeNonEmpty, this.1, this.2]

/-- C9: when every successful fetch of the batch returns empty normal and
premium lists, no `saveSettings` call happens at all — so the `lastUpdated`
stamps written into the loop-local subscription copy are discarded, never
persisted. -/
theorem sync_empty_results_no_save (merge : List Source → List Source → List Source)
    (subscriptions : List Subscription) (settings : Settings)
    (outcomes : List (Option FetchResult)) (times : List Nat)
    (hempty : ∀ r, some r ∈ outcomes → r.normalSources = [] ∧ r.premiumSources = []) :
    sync merge subscriptions settings outcomes times = none := by
  simp only [sync]
  split
  · rfl
  · rw [if_neg]
    rw [runBatch_empty_results merge _ _ _ _ hempty]
    simp

/-- C9 witness: one active subscription whose fetch succeeds with empty lists;
the local copy would carry a fresh stamp, but no save happens. -/
theorem sync_empty_results_no_save_witness :
    sync mergeSources [⟨"s1", "u1", "n1", none, some 2⟩] ⟨["a"], [], []⟩
      [some ⟨[], []⟩] [9] = none :=
  sync_empty_results_no_save mergeSources [⟨"s1", "u1", "n1", none, some 2⟩]
    ⟨["a"], [], []⟩ [some ⟨[], []⟩] [9]
    (by intro r hr; simp at hr; subst hr; exact ⟨rfl, rfl⟩)

/-- Helper: `stampedFrom` is reflexive, lifted to lists. -/
theorem stampedFrom_refl (ts : List Nat) (l : List Subscription) :
    List.Forall₂ (stampedFrom ts) l l :=
  List.forall₂_same.mpr (fun _ _ => Or.inl rfl)

/-- Helper: `updateTimestamp` re-stamps at most the first id match and leaves
every other entry untouched. -/
theorem updateTimestamp_stamps (subId : String) (now : Nat) :
    ∀ l : List Subscription,
      List.Forall₂ (fun o n => n = o ∨ n = { o with lastUpdated := some now })
        l (updateTimestamp l subId now)
  | [] => List.Forall₂.nil
  | s :: rest => by
    simp only [updateTimestamp]
    split
    · exact List.Forall₂.cons (Or.inr rfl) (List.forall₂_same.mpr (fun _ _ => Or.inl rfl))
    · exact List.Forall₂.cons (Or.inl rfl) (updateTimestamp_stamps subId now rest)

/-- Helper: composing an accumulated `stampedFrom` step with one more
re-stamping by a time from the same pool stays within `stampedFrom`. -/
theorem stampedFrom_step {ts : List Nat} {now : Nat} (hnow : now ∈ ts) :
    ∀ {a b c : List Subscription},
      List.Forall₂ (stampedFrom ts) a b →
      List.Forall₂ (fun o n => n = o ∨ n = { o with lastUpdated := some now }) b c →
      List.Forall₂ (stampedFrom ts) a c := by
  intro a b c hab
  induction hab generalizing c with
  | nil =>
    intro hbc
    cases hbc
    exact List.Forall₂.nil
  | cons hR htail ih =>
    intro hbc
    cases hbc with
    | cons hR2 htail2 =>
      refine List.Forall₂.cons ?_ (ih htail2)
      rcases hR2 with rfl | rfl
      · exact hR
      · rcases hR with rfl | ⟨t, _, rfl⟩
        · exact Or.inr ⟨now, hnow, rfl⟩
        · exact Or.inr ⟨now, hnow, rfl⟩

/-- Helper: one loop iteration either leaves the local subscription copy alone
(fetch failure) or applies `updateTimestamp` to it. -/
theorem syncStep_updatedSubscriptions (merge : List Source → List Source → List Source)
    (st : SyncState) (sub : Subscription) (o : Option FetchResult) (t : Nat) :
    (syncStep merge st sub o t).updatedSubscriptions = st.updatedSubscriptions ∨
    (syncStep merge st sub o t).updatedSubscriptions =
      updateTimestamp st.updatedSubscriptions sub.id t := by
  cases o with
  | none => exact Or.inl rfl
  | some r =>
    right
    simp only [syncStep]
    split <;> split <;> rfl

/-- Helper: across a batch, every entry of the local subscription copy is the
original entry, possibly re-stamped with one of the batch clock values. -/
theorem runBatch_stamped (merge : List Source → List Source → List Source)
    (allTs : List Nat) :
    ∀ (subs : List Subscription) (os : List (Option FetchResult)) (ts : List Nat)
      (st : SyncState) (init : List Subscription),
      (∀ t ∈ ts, t ∈ allTs) →
      List.Forall₂ (stampedFrom allTs) init st.updatedSubscriptions →
      List.Forall₂ (stampedFrom allTs) init
        (runBatch merge st subs os ts).updatedSubscriptions := by
  intro subs
  induction subs with
  | nil => intro os ts st init _ hst; cases os <;> cases ts <;> exact hst
  | cons sub subs ih =>
    intro os ts st init hts hst
    cases os with
    | nil => exact hst
    | cons o os =>
      cases ts with
      | nil => exact hst
      | cons t ts =>
        simp only [runBatch]
        refine ih os ts _ init (fun x hx => hts x (List.mem_cons_of_mem _ hx)) ?_
        rcases syncStep_updatedSubscriptions merge st sub o t with h | h
        · rw [h]; exact hst
        · rw [h]
          exact stampedFrom_step (hts t (List.mem_cons_self t ts)) hst
            (updateTimestamp_stamps sub.id t st.updatedSubscriptions)

/-- Helper: given that every batch time dominates every pre-existing stamp,
`stampedFrom` yields id preservation and non-decreasing `lastUpdated`. -/
theorem stampedFrom_mono (times : List Nat) :
    ∀ (l l2 : List Subscription),
      List.Forall₂ (stampedFrom times) l l2 →
      (∀ t ∈ times, ∀ s ∈ l, ∀ u, s.lastUpdated = some u → u ≤ t) →
      List.Forall₂ (fun o n => n.id = o.id ∧
        ∀ u, o.lastUpdated = some u → ∃ v, n.lastUpdated = some v ∧ u ≤ v) l l2 := by
  intro l l2 h
  induction h with
  | nil => intro _; exact List.Forall₂.nil
  | cons hR htail ih =>
    intro hT
    refine List.Forall₂.cons ?_
      (ih (fun t ht s hs => hT t ht s (List.mem_cons_of_mem _ hs)))
    rcases hR with rfl | ⟨t, ht, rfl⟩
    · exact ⟨rfl, fun u hu => ⟨u, hu, Nat.le_refl u⟩⟩
    · exact ⟨rfl, fun u hu => ⟨t, rfl, hT t ht _ (List.mem_cons_self _ _) u hu⟩⟩

/-- C8: across one persisted sync batch whose clock values are no earlier than
any pre-existing stamp (wall-clock time moves forward), the persisted
subscription list keeps every id in place and each `lastUpdated` is either
unchanged or replaced by a value no earlier than the previous one. -/
theorem sync_lastUpdated_monotone (merge : List Source → List Source → List Source)
    (subscriptions : List Subscription) (settings : Settings)
    (outcomes : List (Option FetchResult)) (times : List Nat) (out : Settings)
    (hT : ∀ t ∈ times, ∀ s ∈ subscriptions, ∀ u, s.lastUpdated = some u → u ≤ t)
    (hout : sync merge subscriptions settings outcomes times = some out) :
    List.Forall₂ (fun o n => n.id = o.id ∧
      ∀ u, o.lastUpdated = some u → ∃ v, n.lastUpdated = some v ∧ u ≤ v)
      subscriptions out.subscriptions := by
  have hstamp : List.Forall₂ (stampedFrom times) subscriptions out.subscriptions := by
    simp only [sync] at hout
    split at hout
    · exact absurd hout (by simp)
    · split at hout
      · cases Option.some.inj hout
        exact runBatch_stamped merge times _ outcomes times _ subscriptions
          (fun _ hx => hx) (stampedFrom_refl times subscriptions)
      · exact absurd hout (by simp)
  exact stampedFrom_mono times _ _ hstamp hT

/-- C8 witness: one subscription stamped 1 is re-stamped 5 by a batch at time 5. -/
theorem sync_lastUpdated_monotone_witness :
    List.Forall₂ (fun (o n : Subscription) => n.id = o.id ∧
      ∀ u, o.lastUpdated = some u → ∃ v, n.lastUpdated = some v ∧ u ≤ v)
      [⟨"s1", "u1", "n1", none, some 1⟩]
      (Settings.mk ["x"] [] [⟨"s1", "u1", "n1", none, some 5⟩]).subscriptions :=
  sync_lastUpdated_monotone mergeSources [⟨"s1", "u1", "n1", none, some 1⟩]
    ⟨[], [], []⟩ [some ⟨["x"], []⟩] [5] ⟨["x"], [], [⟨"s1", "u1", "n1", none, some 5⟩]⟩
    (by
      intro t ht s hs u hu
      simp at ht hs
      subst ht
      subst hs
      simp at hu
      omega)
    rfl

/-- Helper: in a non-decreasing event list, the first event is no later than
the last. -/
theorem chain_le_getLast :
    ∀ (t : Nat) (rest : List Nat), List.Chain' (fun a b => a ≤ b) (t :: rest) →
      t ≤ (t :: rest).getLast (List.cons_ne_nil t rest) := by
  intro t rest
  induction rest generalizing t with
  | nil => intro _; exact Nat.le_refl t
  | cons t2 rest ih =>
    intro hs
    have h12 : t ≤ t2 := (List.chain'_cons.mp hs).1
    have h2l := ih t2 (List.chain'_cons.mp hs).2
    rw [List.getLast_cons (List.cons_ne_nil t2 rest)]
    omega

/-- Helper: a non-decreasing burst of changes whose last event still falls
inside the debounce window of the first lets only the final timer fire, and it
fires a full `delay` after the last change. -/
theorem debounceFires_burst (delay : Nat) :
    ∀ (t : Nat) (rest : List Nat),
      List.Chain' (fun a b => a ≤ b) (t :: rest) →
      (t :: rest).getLast (List.cons_ne_nil t rest) < t + delay →
      debounceFires delay (t :: rest) =
        [(t :: rest).getLast (List.cons_ne_nil t rest) + delay] := by
  intro t rest
  induction rest generalizing t with
  | nil => intro _ _; rfl
  | cons t2 rest ih =>
    intro hs hw
    have h12 : t ≤ t2 := (List.chain'_cons.mp hs).1
    have hs2 : List.Chain' (fun a b => a ≤ b) (t2 :: rest) := (List.chain'_cons.mp hs).2
    have hlast : (t :: t2 :: rest).getLast (List.cons_ne_nil t (t2 :: rest)) =
        (t2 :: rest).getLast (List.cons_ne_nil t2 rest) :=
      List.getLast_cons (List.cons_ne_nil t2 rest)
    rw [hlast] at hw ⊢
    have ht2l : t2 ≤ (t2 :: rest).getLast (List.cons_ne_nil t2 rest) :=
      chain_le_getLast t2 rest hs2
    have hcancel : ¬ (t + delay < t2) := by omega
    have hw2 : (t2 :: rest).getLast (List.cons_ne_nil t2 rest) < t2 + delay := by omega
    simp only [debounceFires, if_neg hcancel, List.nil_append]
    exact ih t2 hs2 hw2

/-- C6: the trailing debounce of useSubscriptionSync, modelled with the
setTimeout/clearTimeout event semantics of `debounceFires`: for any burst of
subscription-list changes (non-decreasing times) that all fall within the
1-second window opened by the first change, exactly one sync batch runs, a full
second after the last change — so N settings saves inside the window yield at
most one fetch cycle per subscription. -/
theorem sync_debounce_coalesces (t : Nat) (rest : List Nat)
    (hsorted : List.Chain' (fun a b => a ≤ b) (t :: rest))
    (hwin : (t :: rest).getLast (List.cons_ne_nil t rest) < t + syncDebounceDelay) :
    debounceFires syncDebounceDelay (t :: rest) =
      [(t :: rest).getLast (List.cons_ne_nil t rest) + syncDebounceDelay] :=
  debounceFires_burst syncDebounceDelay t rest hsorted hwin

/-- C6 witness: three saves at 0, 200 and 500 ms collapse into one sync at
1500 ms. -/
theorem sync_debounce_coalesces_witness :
    debounceFires syncDebounceDelay [0, 200, 500] = [1500] :=
  sync_debounce_coalesces 0 [200, 500]
    (by simp [List.chain'_cons]) (by decide)

end KVideo
